import Mathlib

/-! Cache-aside photo proxy (`server.js`)

A shallow embedding of the two Express handlers of `server.js`,

* `app.get("/photos", ...)`      (here `listPhotos`), and
* `app.get("/photos/:id", ...)`  (here `getPhotoById`),

together with the collaborators they talk to: the Redis client (`get`, `setEx`), the
HTTP client (`axios.get`) and the `JSON` built-ins.  The collaborators are not part of
the repository; each is represented by what a single command can answer:

* Redis is a key/value store with absolute expiry times, and every command may be
  rejected (`World.getFault`, `World.setFault`);
* `axios.get` is a function from the outgoing request to either the parsed body or an
  exception (`World.upstream`);
* `JSON.parse` / `JSON.stringify` are the two fields of `JSONLib`.

An outgoing request is recorded as the URL text and the parameters handed to the HTTP
client.  How the client turns that text into a request line is not modelled.

Console output is not recorded.  What *is* recorded is whether building a log line
throws, because an exception inside the `try` block changes the response.
-/

namespace PhotoServer

/-! ## Values -/

/-- A JSON value, as produced by `JSON.parse` and by the HTTP client for a JSON body.
Numbers are kept as a decimal `mantissa * 10 ^ exp10`; no handler inspects them. -/
inductive Json where
  | null
  | bool (b : Bool)
  | num (mantissa : Int) (exp10 : Int)
  | str (s : String)
  | arr (items : List Json)
  | obj (fields : List (String × Json))

/-- A thrown JavaScript exception, identified by its `message`. -/
abbrev JsError := String

/-- The `JSON` built-ins used by the handlers.  `parse` throws on text that is not JSON. -/
structure JSONLib where
  parse : String → Except JsError Json
  stringify : Json → String

/-! ## The Redis store -/

/-- A stored string together with the absolute time (in seconds) at which it expires. -/
structure Entry where
  value : String
  expiresAt : Nat

/-- The contents of the Redis database. -/
abbrev Store := String → Option Entry

/-- The store with no keys. -/
def Store.empty : Store := fun _ => none

/-- Redis `GET key` executed at time `now`: an expired entry is absent. -/
def Store.get (s : Store) (now : Nat) (key : String) : Option String :=
  match s key with
  | some e => if now < e.expiresAt then some e.value else none
  | none => none

/-- Redis `SETEX key ttl value` executed at time `now`: value and expiry are replaced. -/
def Store.setEx (s : Store) (now : Nat) (key : String) (ttl : Nat) (value : String) : Store :=
  fun k => if k = key then some ⟨value, now + ttl⟩ else s k

/-! ## Requests, responses and observable effects -/

/-- An outgoing `axios.get(url, { params })` call.  A parameter bound to `none` is
`undefined`, which the HTTP client leaves out of the query string. -/
structure UpstreamRequest where
  url : String
  params : List (String × Option String)

/-- What the handler sends back with `res.status(..).json(..)`. -/
structure Response where
  status : Nat
  body : Json

/-- A command issued to a collaborator, whether or not it succeeds. -/
inductive Effect where
  | cacheGet (key : String)
  | upstreamGet (req : UpstreamRequest)
  | cacheSetEx (key : String) (ttl : Nat) (value : String)

/-- Everything a collaborator can answer during one request. -/
structure World where
  /-- time at which the `GET` reaches Redis -/
  getTime : Nat
  /-- time at which the `SETEX` reaches Redis -/
  setTime : Nat
  /-- when `some e`, `redisClient.get` rejects with `e` -/
  getFault : Option JsError
  /-- when `some e`, `redisClient.setEx` rejects with `e` -/
  setFault : Option JsError
  /-- the outcome of `axios.get` for a given outgoing request -/
  upstream : UpstreamRequest → Except JsError Json

/-- The call `await redisClient.get(key)`. -/
def World.redisGet (w : World) (s : Store) (key : String) : Except JsError (Option String) :=
  match w.getFault with
  | some e => .error e
  | none => .ok (s.get w.getTime key)

/-- The call `await redisClient.setEx(key, ttl, value)`; a rejected command stores nothing. -/
def World.redisSetEx (w : World) (s : Store) (key : String) (ttl : Nat) (value : String) :
    Except JsError Store :=
  match w.setFault with
  | some e => .error e
  | none => .ok (s.setEx w.setTime key ttl value)

/-- The state in which a `try` block ends: the value handed to `res.json`, or the
exception that left the block, with the store and the commands issued so far. -/
structure Run where
  result : Except JsError Json
  store : Store
  trace : List Effect

/-- The result of serving one request. -/
structure Outcome where
  response : Response
  store : Store
  trace : List Effect

/-! ## The log line of the collection handler

After the cache write the collection handler logs the template literal
"Cached ${data.length} photos in Redis".  Evaluating it reads a property of `data` and
converts the property to a string.  Both steps can throw. -/

/-- The value of the property read `data.length`. -/
inductive LengthProp where
  | undefined
  | count (n : Nat)
  | field (v : Json)

/-- Number of UTF-16 code units of a string (the `length` of a JavaScript string). -/
def utf16Length (s : String) : Nat :=
  (s.data.map fun c => if c.val.toNat < 65536 then 1 else 2).sum

/-- The property read `data.length`: a `TypeError` on `null`, the own property of an
object (the last occurrence of the key wins in `JSON.parse`), `undefined` on booleans
and numbers. -/
def Json.getLength : Json → Except JsError LengthProp
  | .null => .error "Cannot read properties of null (reading 'length')"
  | .bool _ => .ok .undefined
  | .num _ _ => .ok .undefined
  | .str s => .ok (.count (utf16Length s))
  | .arr items => .ok (.count items.length)
  | .obj fields =>
    match fields.reverse.lookup "length" with
    | some v => .ok (.field v)
    | none => .ok .undefined

mutual
/-- The string conversion applied to a value inside a template literal; only whether
it throws is kept.  A plain object converts through `Object.prototype.toString`
unless it has an own key `toString` (never callable for parsed JSON), in which case
the conversion ends in a `TypeError`.  An array converts by joining its elements. -/
def Json.coerceToString : Json → Except JsError Unit
  | .null => .ok ()
  | .bool _ => .ok ()
  | .num _ _ => .ok ()
  | .str _ => .ok ()
  | .arr items => Json.coerceAll items
  | .obj fields =>
    if fields.any (fun p => p.1 == "toString") then
      .error "Cannot convert object to primitive value"
    else .ok ()
/-- String conversion of the elements of an array, left to right. -/
def Json.coerceAll : List Json → Except JsError Unit
  | [] => .ok ()
  | x :: rest =>
    match Json.coerceToString x with
    | .error e => .error e
    | .ok _ => Json.coerceAll rest
end

/-- Evaluation of the template literal of the collection handler's log line. -/
def cachedCountLog (data : Json) : Except JsError Unit :=
  match data.getLength with
  | .error e => .error e
  | .ok (.field v) => v.coerceToString
  | .ok _ => .ok ()

/-! ## The handlers -/

/-- Model of `const DEFAULT_EXPIRATION = 3600`. -/
def DEFAULT_EXPIRATION : Nat := 3600

/-- The cache key of the collection handler. -/
def photosKey : String := "photos"

/-- The cache key of the single-item handler, the template literal `photo:${photoId}`. -/
def photoKey (photoId : String) : String := "photo:" ++ photoId

/-- The upstream URL of the collection. -/
def photosUrl : String := "https://jsonplaceholder.typicode.com/photos"

/-- The upstream URL of one item: the template literal
`https://jsonplaceholder.typicode.com/photos/${photoId}`. -/
def photoUrl (photoId : String) : String :=
  "https://jsonplaceholder.typicode.com/photos/" ++ photoId

/-- The outgoing request of the collection handler: `{ params: { albumId } }`. -/
def photosRequest (albumId : Option String) : UpstreamRequest :=
  ⟨photosUrl, [("albumId", albumId)]⟩

/-- The outgoing request of the single-item handler. -/
def photoRequest (photoId : String) : UpstreamRequest :=
  ⟨photoUrl photoId, []⟩

/-- The part of the collection handler's `try` block after `Cache MISS`. -/
def listPhotosMiss (J : JSONLib) (w : World) (albumId : Option String) (s : Store) : Run :=
  let req := photosRequest albumId
  match w.upstream req with
  | .error e => ⟨.error e, s, [.cacheGet photosKey, .upstreamGet req]⟩
  | .ok data =>
    let payload := J.stringify data
    let issued := [.cacheGet photosKey, .upstreamGet req,
      .cacheSetEx photosKey DEFAULT_EXPIRATION payload]
    match w.redisSetEx s photosKey DEFAULT_EXPIRATION payload with
    | .error e => ⟨.error e, s, issued⟩
    | .ok s' =>
      match cachedCountLog data with
      | .error e => ⟨.error e, s', issued⟩
      | .ok _ => ⟨.ok data, s', issued⟩

/-- The `try` block of `app.get("/photos", ...)`. -/
def listPhotosTry (J : JSONLib) (w : World) (albumId : Option String) (s : Store) : Run :=
  match w.redisGet s photosKey with
  | .error e => ⟨.error e, s, [.cacheGet photosKey]⟩
  | .ok (some cachedData) =>
    if cachedData ≠ "" then
      ⟨J.parse cachedData, s, [.cacheGet photosKey]⟩
    else listPhotosMiss J w albumId s
  | .ok none => listPhotosMiss J w albumId s

/-- The handler `app.get("/photos", ...)`: the `try` block and its `catch`. -/
def listPhotos (J : JSONLib) (w : World) (albumId : Option String) (s : Store) : Outcome :=
  let r := listPhotosTry J w albumId s
  match r.result with
  | .ok body => ⟨⟨200, body⟩, r.store, r.trace⟩
  | .error _ => ⟨⟨500, .obj [("error", .str "Failed to fetch photos")]⟩, r.store, r.trace⟩

/-- The part of the single-item handler's `try` block after `Cache MISS`. -/
def getPhotoByIdMiss (J : JSONLib) (w : World) (photoId : String) (s : Store) : Run :=
  let req := photoRequest photoId
  match w.upstream req with
  | .error e => ⟨.error e, s, [.cacheGet (photoKey photoId), .upstreamGet req]⟩
  | .ok data =>
    let payload := J.stringify data
    let issued := [.cacheGet (photoKey photoId), .upstreamGet req,
      .cacheSetEx (photoKey photoId) DEFAULT_EXPIRATION payload]
    match w.redisSetEx s (photoKey photoId) DEFAULT_EXPIRATION payload with
    | .error e => ⟨.error e, s, issued⟩
    | .ok s' => ⟨.ok data, s', issued⟩

/-- The `try` block of `app.get("/photos/:id", ...)`. -/
def getPhotoByIdTry (J : JSONLib) (w : World) (photoId : String) (s : Store) : Run :=
  match w.redisGet s (photoKey photoId) with
  | .error e => ⟨.error e, s, [.cacheGet (photoKey photoId)]⟩
  | .ok (some cachedData) =>
    if cachedData ≠ "" then
      ⟨J.parse cachedData, s, [.cacheGet (photoKey photoId)]⟩
    else getPhotoByIdMiss J w photoId s
  | .ok none => getPhotoByIdMiss J w photoId s

/-- The handler `app.get("/photos/:id", ...)`: the `try` block and its `catch`. -/
def getPhotoById (J : JSONLib) (w : World) (photoId : String) (s : Store) : Outcome :=
  let r := getPhotoByIdTry J w photoId s
  match r.result with
  | .ok body => ⟨⟨200, body⟩, r.store, r.trace⟩
  | .error _ => ⟨⟨500, .obj [("error", .str "Failed to fetch photo")]⟩, r.store, r.trace⟩

/-! ## Views of a trace -/

/-- The outgoing HTTP requests of a trace, in order. -/
def upstreamCalls : List Effect → List UpstreamRequest
  | [] => []
  | .upstreamGet req :: rest => req :: upstreamCalls rest
  | _ :: rest => upstreamCalls rest

/-- The cache writes `(key, ttl, value)` of a trace, in order. -/
def cacheWrites : List Effect → List (String × Nat × String)
  | [] => []
  | .cacheSetEx key ttl value :: rest => (key, ttl, value) :: cacheWrites rest
  | _ :: rest => cacheWrites rest

/-- The keys named by the cache commands of a trace, reads and writes alike. -/
def cacheKeys : List Effect → List String
  | [] => []
  | .cacheGet key :: rest => key :: cacheKeys rest
  | .cacheSetEx key _ _ :: rest => key :: cacheKeys rest
  | _ :: rest => cacheKeys rest

/-! ## Routing and sequences of requests -/

/-- A request as dispatched by the router: `GET /photos?albumId=..` or `GET /photos/:id`. -/
inductive Request where
  | photos (albumId : Option String)
  | photo (photoId : String)

/-- The cache key the handler of a request uses. -/
def Request.key : Request → String
  | .photos _ => photosKey
  | .photo photoId => photoKey photoId

/-- The outgoing request the handler of a request issues on a miss. -/
def Request.upstreamRequest : Request → UpstreamRequest
  | .photos albumId => photosRequest albumId
  | .photo photoId => photoRequest photoId

/-- The response sent by the `catch` block of the handler of a request. -/
def Request.failure : Request → Response
  | .photos _ => ⟨500, .obj [("error", .str "Failed to fetch photos")]⟩
  | .photo _ => ⟨500, .obj [("error", .str "Failed to fetch photo")]⟩

/-- Dispatch of one request to its handler. -/
def serve (J : JSONLib) (w : World) : Request → Store → Outcome
  | .photos albumId, s => listPhotos J w albumId s
  | .photo photoId, s => getPhotoById J w photoId s

/-- A sequence of requests served one after the other, each against the store left by
the previous one. -/
def serveAll (J : JSONLib) : List (World × Request) → Store → List Outcome
  | [], _ => []
  | (w, r) :: rest, s => serve J w r s :: serveAll J rest (serve J w r s).store

/-! ## A JSON reader and writer for running the handlers

The theorems below hold for every `JSONLib`.  To run the handlers on concrete inputs a
`JSONLib` is needed; `refJSON` writes compact JSON text and reads it back.  It is a
sample library, not the JavaScript built-ins: it agrees with them on values made of
`null`, booleans, integers, strings of ordinary characters, arrays, and objects without
repeated keys, which is all the concrete inputs below use.  Outside of that it differs:
a number with a fraction or an exponent is written in the form `15e-1`, integers are
kept exact however large, repeated keys are kept, and an escaped surrogate pair is not
joined into one character. -/

namespace RefJson

/-- Decimal digits of a natural number, most significant first. -/
def natDigits : Nat → Nat → List Char → List Char
  | 0, _, acc => acc
  | fuel + 1, n, acc =>
    let acc := Char.ofNat (48 + n % 10) :: acc
    if n / 10 = 0 then acc else natDigits fuel (n / 10) acc

/-- Decimal text of a natural number. -/
def writeNat (n : Nat) : List Char := natDigits (n + 1) n []

/-- Decimal text of an integer. -/
def writeInt : Int → List Char
  | .ofNat n => writeNat n
  | .negSucc n => '-' :: writeNat (n + 1)

/-- Lower-case hexadecimal digit. -/
def hexDigit (n : Nat) : Char := if n < 10 then Char.ofNat (48 + n) else Char.ofNat (87 + n)

/-- One character of a string literal, escaped as `JSON.stringify` escapes it. -/
def writeChar (c : Char) : List Char :=
  if c = '"' then ['\\', '"']
  else if c = '\\' then ['\\', '\\']
  else if c = '\n' then ['\\', 'n']
  else if c = '\r' then ['\\', 'r']
  else if c = '\t' then ['\\', 't']
  else if c.toNat = 8 then ['\\', 'b']
  else if c.toNat = 12 then ['\\', 'f']
  else if c.toNat < 32 then ['\\', 'u', '0', '0', hexDigit (c.toNat / 16), hexDigit (c.toNat % 16)]
  else [c]

/-- A quoted string literal. -/
def writeString (s : String) : List Char :=
  '"' :: (s.data.flatMap writeChar ++ ['"'])

mutual
/-- Compact JSON text of a value, as a list of characters. -/
def write : Json → List Char
  | .null => "null".data
  | .bool true => "true".data
  | .bool false => "false".data
  | .num m 0 => writeInt m
  | .num m e => writeInt m ++ 'e' :: writeInt e
  | .str s => writeString s
  | .arr [] => ['[', ']']
  | .arr (x :: rest) => '[' :: (write x ++ writeItems rest)
  | .obj [] => ['{', '}']
  | .obj ((k, v) :: rest) => '{' :: (writeString k ++ ':' :: (write v ++ writeFields rest))
/-- The remaining elements of an array and its closing bracket. -/
def writeItems : List Json → List Char
  | [] => [']']
  | x :: rest => ',' :: (write x ++ writeItems rest)
/-- The remaining members of an object and its closing brace. -/
def writeFields : List (String × Json) → List Char
  | [] => ['}']
  | (k, v) :: rest => ',' :: (writeString k ++ ':' :: (write v ++ writeFields rest))
end

/-- Drops leading JSON white space. -/
def skipWs : List Char → List Char
  | c :: cs => if c = ' ' ∨ c = '\n' ∨ c = '\r' ∨ c = '\t' then skipWs cs else c :: cs
  | [] => []

/-- Value of a decimal digit. -/
def digitOf (c : Char) : Option Nat :=
  if 48 ≤ c.toNat ∧ c.toNat ≤ 57 then some (c.toNat - 48) else none

/-- Value of a hexadecimal digit. -/
def hexOf (c : Char) : Option Nat :=
  if 48 ≤ c.toNat ∧ c.toNat ≤ 57 then some (c.toNat - 48)
  else if 97 ≤ c.toNat ∧ c.toNat ≤ 102 then some (c.toNat - 87)
  else if 65 ≤ c.toNat ∧ c.toNat ≤ 70 then some (c.toNat - 55)
  else none

/-- Reads a maximal run of digits; returns its value, its length and the remaining text. -/
def readDigits : List Char → Nat → Nat → Nat × Nat × List Char
  | c :: cs, acc, len =>
    match digitOf c with
    | some d => readDigits cs (10 * acc + d) (len + 1)
    | none => (acc, len, c :: cs)
  | [], acc, len => (acc, len, [])

/-- Reads an optional minus sign and a non-empty run of digits. -/
def readSigned (cs : List Char) : Option (Int × Nat × List Char) :=
  match cs with
  | '-' :: rest =>
    match readDigits rest 0 0 with
    | (_, 0, _) => none
    | (n, len, r) => some (- (n : Int), len, r)
  | _ =>
    match readDigits cs 0 0 with
    | (_, 0, _) => none
    | (n, len, r) => some ((n : Int), len, r)

/-- Reads an optional exponent part. -/
def readExponent (cs : List Char) : Option (Int × List Char) :=
  match cs with
  | 'e' :: '+' :: rest => (readSigned rest).map fun (e, _, r) => (e, r)
  | 'e' :: rest => (readSigned rest).map fun (e, _, r) => (e, r)
  | 'E' :: '+' :: rest => (readSigned rest).map fun (e, _, r) => (e, r)
  | 'E' :: rest => (readSigned rest).map fun (e, _, r) => (e, r)
  | _ => some (0, cs)

/-- Whether a number literal starts with a zero followed by another digit, which JSON
does not allow. -/
def leadingZero : List Char → Bool
  | '-' :: '0' :: d :: _ => (digitOf d).isSome
  | '0' :: d :: _ => (digitOf d).isSome
  | _ => false

/-- Reads a number literal as `mantissa * 10 ^ exp10`. -/
def readNumber (cs : List Char) : Option (Json × List Char) :=
  if leadingZero cs then none else
  match readSigned cs with
  | none => none
  | some (m, _, '.' :: rest) =>
    match readDigits rest 0 0 with
    | (_, 0, _) => none
    | (f, len, r) =>
      match readExponent r with
      | none => none
      | some (e, r2) =>
        some (.num (m * 10 ^ len + (if cs.head? = some '-' then - (f : Int) else f)) (e - len), r2)
  | some (m, _, r) =>
    match readExponent r with
    | none => none
    | some (e, r2) => some (.num m e, r2)

/-- Reads a string literal after its opening quote. -/
def readString : List Char → List Char → Option (String × List Char)
  | [], _ => none
  | '"' :: cs, acc => some (⟨acc.reverse⟩, cs)
  | '\\' :: 'u' :: a :: b :: c :: d :: cs, acc =>
    match hexOf a, hexOf b, hexOf c, hexOf d with
    | some a, some b, some c, some d => readString cs (Char.ofNat (4096 * a + 256 * b + 16 * c + d) :: acc)
    | _, _, _, _ => none
  | '\\' :: c :: cs, acc =>
    if c = '"' then readString cs ('"' :: acc)
    else if c = '\\' then readString cs ('\\' :: acc)
    else if c = '/' then readString cs ('/' :: acc)
    else if c = 'n' then readString cs ('\n' :: acc)
    else if c = 'r' then readString cs ('\r' :: acc)
    else if c = 't' then readString cs ('\t' :: acc)
    else if c = 'b' then readString cs (Char.ofNat 8 :: acc)
    else if c = 'f' then readString cs (Char.ofNat 12 :: acc)
    else none
  | c :: cs, acc => if c.toNat < 32 then none else readString cs (c :: acc)

mutual
/-- Reads one JSON value; `fuel` bounds the nesting of calls. -/
def readValue : Nat → List Char → Option (Json × List Char)
  | 0, _ => none
  | fuel + 1, cs =>
    match skipWs cs with
    | 'n' :: 'u' :: 'l' :: 'l' :: rest => some (.null, rest)
    | 't' :: 'r' :: 'u' :: 'e' :: rest => some (.bool true, rest)
    | 'f' :: 'a' :: 'l' :: 's' :: 'e' :: rest => some (.bool false, rest)
    | '"' :: rest => (readString rest []).map fun (s, r) => (.str s, r)
    | '[' :: rest =>
      match skipWs rest with
      | ']' :: r => some (.arr [], r)
      | r => readItems fuel r []
    | '{' :: rest =>
      match skipWs rest with
      | '}' :: r => some (.obj [], r)
      | r => readFields fuel r []
    | other => readNumber other
/-- Reads the elements of an array up to its closing bracket. -/
def readItems : Nat → List Char → List Json → Option (Json × List Char)
  | 0, _, _ => none
  | fuel + 1, cs, acc =>
    match readValue fuel cs with
    | none => none
    | some (v, r) =>
      match skipWs r with
      | ',' :: r2 => readItems fuel r2 (v :: acc)
      | ']' :: r2 => some (.arr (v :: acc).reverse, r2)
      | _ => none
/-- Reads the members of an object up to its closing brace. -/
def readFields : Nat → List Char → List (String × Json) → Option (Json × List Char)
  | 0, _, _ => none
  | fuel + 1, cs, acc =>
    match skipWs cs with
    | '"' :: r =>
      match readString r [] with
      | none => none
      | some (k, r1) =>
        match skipWs r1 with
        | ':' :: r2 =>
          match readValue fuel r2 with
          | none => none
          | some (v, r3) =>
            match skipWs r3 with
            | ',' :: r4 => readFields fuel r4 ((k, v) :: acc)
            | '}' :: r4 => some (.obj ((k, v) :: acc).reverse, r4)
            | _ => none
        | _ => none
    | _ => none
end

/-- Reads a whole text as one JSON value. -/
def parse (s : String) : Except JsError Json :=
  match readValue (2 * s.length + 2) s.data with
  | some (v, rest) =>
    match skipWs rest with
    | [] => .ok v
    | _ => .error "Unexpected non-whitespace character after JSON"
  | none => .error "Unexpected token"

/-- Compact JSON text of a value. -/
def stringify (d : Json) : String := ⟨write d⟩

end RefJson

/-- A sample `JSONLib` that writes and reads compact JSON text. -/
def refJSON : JSONLib := ⟨RefJson.parse, RefJson.stringify⟩

/-! ## Sample data -/

/-- A world at time `t` in which Redis accepts every command and the upstream gives the
same `answer` to every request. -/
def calmWorld (t : Nat) (answer : Except JsError Json) : World :=
  ⟨t, t, none, none, fun _ => answer⟩

/-- A world at time `t` in which Redis rejects the lookup. -/
def lookupDownWorld (t : Nat) (answer : Except JsError Json) : World :=
  ⟨t, t, some "The client is closed", none, fun _ => answer⟩

/-- A world at time `t` in which Redis answers lookups and rejects writes. -/
def writeDownWorld (t : Nat) (answer : Except JsError Json) : World :=
  ⟨t, t, none, some "READONLY You can not write against a read only replica.",
    fun _ => answer⟩

/-- One photo, as the upstream returns it. -/
def photo5 : Json :=
  .obj [("albumId", .num 1 0), ("id", .num 5 0), ("title", .str "natus nisi omnis")]

/-- The photos of an album, as the upstream returns them. -/
def album1 : Json :=
  .arr [.obj [("albumId", .num 1 0), ("id", .num 1 0)],
    .obj [("albumId", .num 1 0), ("id", .num 2 0)]]

/-- A store whose collection entry is the empty string, expiring at time 3600. -/
def blankStore : Store := Store.empty.setEx 0 photosKey DEFAULT_EXPIRATION ""

/-- A store whose collection entry is not JSON, expiring at time 3600. -/
def garbledStore : Store := Store.empty.setEx 0 photosKey DEFAULT_EXPIRATION "<html>"

/-- A store holding `photo5` under its key, expiring at time 3600. -/
def warmStore : Store :=
  Store.empty.setEx 0 (photoKey "5") DEFAULT_EXPIRATION (refJSON.stringify photo5)

/-! ## How a lookup ends

A lookup is rejected, or answers with a non-empty string (a hit), or answers with
nothing or with the empty string (both falsy, so both a miss). -/

theorem redisGet_cases (w : World) (s : Store) (key : String) :
    (∃ e, w.redisGet s key = .error e) ∨
    (∃ v, v ≠ "" ∧ w.redisGet s key = .ok (some v)) ∨
    (w.redisGet s key = .ok none ∨ w.redisGet s key = .ok (some "")) := by
  rcases h : w.redisGet s key with e | (_ | v)
  · exact Or.inl ⟨e, rfl⟩
  · exact Or.inr (Or.inr (Or.inl rfl))
  · by_cases hv : v = ""
    · subst hv; exact Or.inr (Or.inr (Or.inr rfl))
    · exact Or.inr (Or.inl ⟨v, hv, rfl⟩)

theorem redisGet_of_fault {w : World} {e : JsError} (h : w.getFault = some e) (s : Store)
    (key : String) : w.redisGet s key = .error e := by
  simp [World.redisGet, h]

theorem redisGet_of_working {w : World} (h : w.getFault = none) (s : Store) (key : String) :
    w.redisGet s key = .ok (s.get w.getTime key) := by
  simp [World.redisGet, h]

theorem listPhotosTry_rejected {w : World} {s : Store} {e : JsError}
    (h : w.redisGet s photosKey = .error e) (J : JSONLib) (albumId : Option String) :
    listPhotosTry J w albumId s = ⟨.error e, s, [.cacheGet photosKey]⟩ := by
  unfold listPhotosTry; rw [h]

theorem listPhotosTry_hit {w : World} {s : Store} {v : String}
    (h : w.redisGet s photosKey = .ok (some v)) (hv : v ≠ "") (J : JSONLib)
    (albumId : Option String) :
    listPhotosTry J w albumId s = ⟨J.parse v, s, [.cacheGet photosKey]⟩ := by
  unfold listPhotosTry; rw [h]; simp [hv]

theorem listPhotosTry_miss {w : World} {s : Store}
    (h : w.redisGet s photosKey = .ok none ∨ w.redisGet s photosKey = .ok (some ""))
    (J : JSONLib) (albumId : Option String) :
    listPhotosTry J w albumId s = listPhotosMiss J w albumId s := by
  unfold listPhotosTry; rcases h with h | h <;> simp [h]

theorem getPhotoByIdTry_rejected {w : World} {s : Store} {photoId : String} {e : JsError}
    (h : w.redisGet s (photoKey photoId) = .error e) (J : JSONLib) :
    getPhotoByIdTry J w photoId s = ⟨.error e, s, [.cacheGet (photoKey photoId)]⟩ := by
  unfold getPhotoByIdTry; rw [h]

theorem getPhotoByIdTry_hit {w : World} {s : Store} {photoId v : String}
    (h : w.redisGet s (photoKey photoId) = .ok (some v)) (hv : v ≠ "") (J : JSONLib) :
    getPhotoByIdTry J w photoId s = ⟨J.parse v, s, [.cacheGet (photoKey photoId)]⟩ := by
  unfold getPhotoByIdTry; rw [h]; simp [hv]

theorem getPhotoByIdTry_miss {w : World} {s : Store} {photoId : String}
    (h : w.redisGet s (photoKey photoId) = .ok none ∨
      w.redisGet s (photoKey photoId) = .ok (some "")) (J : JSONLib) :
    getPhotoByIdTry J w photoId s = getPhotoByIdMiss J w photoId s := by
  unfold getPhotoByIdTry; rcases h with h | h <;> simp [h]

/-! ## The `catch` block keeps the store and the trace of the `try` block -/

theorem listPhotos_store (J : JSONLib) (w : World) (albumId : Option String) (s : Store) :
    (listPhotos J w albumId s).store = (listPhotosTry J w albumId s).store := by
  unfold listPhotos
  generalize listPhotosTry J w albumId s = r
  rcases r with ⟨_ | _, _, _⟩ <;> rfl

theorem listPhotos_trace (J : JSONLib) (w : World) (albumId : Option String) (s : Store) :
    (listPhotos J w albumId s).trace = (listPhotosTry J w albumId s).trace := by
  unfold listPhotos
  generalize listPhotosTry J w albumId s = r
  rcases r with ⟨_ | _, _, _⟩ <;> rfl

theorem listPhotos_response_ok {J : JSONLib} {w : World} {albumId : Option String} {s : Store}
    {body : Json} (h : (listPhotosTry J w albumId s).result = .ok body) :
    (listPhotos J w albumId s).response = ⟨200, body⟩ := by
  unfold listPhotos; simp only [h]

theorem listPhotos_response_error {J : JSONLib} {w : World} {albumId : Option String}
    {s : Store} {e : JsError} (h : (listPhotosTry J w albumId s).result = .error e) :
    (listPhotos J w albumId s).response = (Request.photos albumId).failure := by
  unfold listPhotos; simp only [h]; rfl

theorem getPhotoById_store (J : JSONLib) (w : World) (photoId : String) (s : Store) :
    (getPhotoById J w photoId s).store = (getPhotoByIdTry J w photoId s).store := by
  unfold getPhotoById
  generalize getPhotoByIdTry J w photoId s = r
  rcases r with ⟨_ | _, _, _⟩ <;> rfl

theorem getPhotoById_trace (J : JSONLib) (w : World) (photoId : String) (s : Store) :
    (getPhotoById J w photoId s).trace = (getPhotoByIdTry J w photoId s).trace := by
  unfold getPhotoById
  generalize getPhotoByIdTry J w photoId s = r
  rcases r with ⟨_ | _, _, _⟩ <;> rfl

/-! ## The miss branch, case by case -/

theorem listPhotosMiss_upstream_error {w : World} {albumId : Option String} {e : JsError}
    (h : w.upstream (photosRequest albumId) = .error e) (J : JSONLib) (s : Store) :
    listPhotosMiss J w albumId s =
      ⟨.error e, s, [.cacheGet photosKey, .upstreamGet (photosRequest albumId)]⟩ := by
  simp only [listPhotosMiss, h]

theorem listPhotosMiss_set_error {J : JSONLib} {w : World} {albumId : Option String}
    {s : Store} {d : Json} {e : JsError} (h : w.upstream (photosRequest albumId) = .ok d)
    (hset : w.redisSetEx s photosKey DEFAULT_EXPIRATION (J.stringify d) = .error e) :
    listPhotosMiss J w albumId s =
      ⟨.error e, s, [.cacheGet photosKey, .upstreamGet (photosRequest albumId),
        .cacheSetEx photosKey DEFAULT_EXPIRATION (J.stringify d)]⟩ := by
  simp only [listPhotosMiss, h, hset]

theorem listPhotosMiss_log_error {J : JSONLib} {w : World} {albumId : Option String}
    {s s' : Store} {d : Json} {e : JsError} (h : w.upstream (photosRequest albumId) = .ok d)
    (hset : w.redisSetEx s photosKey DEFAULT_EXPIRATION (J.stringify d) = .ok s')
    (hlog : cachedCountLog d = .error e) :
    listPhotosMiss J w albumId s =
      ⟨.error e, s', [.cacheGet photosKey, .upstreamGet (photosRequest albumId),
        .cacheSetEx photosKey DEFAULT_EXPIRATION (J.stringify d)]⟩ := by
  simp only [listPhotosMiss, h, hset, hlog]

theorem listPhotosMiss_ok {J : JSONLib} {w : World} {albumId : Option String}
    {s s' : Store} {d : Json} (h : w.upstream (photosRequest albumId) = .ok d)
    (hset : w.redisSetEx s photosKey DEFAULT_EXPIRATION (J.stringify d) = .ok s')
    (hlog : cachedCountLog d = .ok ()) :
    listPhotosMiss J w albumId s =
      ⟨.ok d, s', [.cacheGet photosKey, .upstreamGet (photosRequest albumId),
        .cacheSetEx photosKey DEFAULT_EXPIRATION (J.stringify d)]⟩ := by
  simp only [listPhotosMiss, h, hset, hlog]

theorem getPhotoByIdMiss_upstream_error {w : World} {photoId : String} {e : JsError}
    (h : w.upstream (photoRequest photoId) = .error e) (J : JSONLib) (s : Store) :
    getPhotoByIdMiss J w photoId s =
      ⟨.error e, s, [.cacheGet (photoKey photoId), .upstreamGet (photoRequest photoId)]⟩ := by
  simp only [getPhotoByIdMiss, h]

theorem getPhotoByIdMiss_set_error {J : JSONLib} {w : World} {photoId : String}
    {s : Store} {d : Json} {e : JsError} (h : w.upstream (photoRequest photoId) = .ok d)
    (hset : w.redisSetEx s (photoKey photoId) DEFAULT_EXPIRATION (J.stringify d) = .error e) :
    getPhotoByIdMiss J w photoId s =
      ⟨.error e, s, [.cacheGet (photoKey photoId), .upstreamGet (photoRequest photoId),
        .cacheSetEx (photoKey photoId) DEFAULT_EXPIRATION (J.stringify d)]⟩ := by
  simp only [getPhotoByIdMiss, h, hset]

theorem getPhotoByIdMiss_ok {J : JSONLib} {w : World} {photoId : String}
    {s s' : Store} {d : Json} (h : w.upstream (photoRequest photoId) = .ok d)
    (hset : w.redisSetEx s (photoKey photoId) DEFAULT_EXPIRATION (J.stringify d) = .ok s') :
    getPhotoByIdMiss J w photoId s =
      ⟨.ok d, s', [.cacheGet (photoKey photoId), .upstreamGet (photoRequest photoId),
        .cacheSetEx (photoKey photoId) DEFAULT_EXPIRATION (J.stringify d)]⟩ := by
  simp only [getPhotoByIdMiss, h, hset]

theorem redisSetEx_cases (w : World) (s : Store) (key : String) (ttl : Nat) (value : String) :
    (∃ e, w.setFault = some e ∧ w.redisSetEx s key ttl value = .error e) ∨
    (w.setFault = none ∧ w.redisSetEx s key ttl value = .ok (s.setEx w.setTime key ttl value)) := by
  unfold World.redisSetEx
  cases h : w.setFault with
  | none => exact Or.inr ⟨rfl, rfl⟩
  | some e => exact Or.inl ⟨e, rfl, rfl⟩

/-- On a miss the collection handler issues the lookup, one upstream request and, when
the upstream answered, one write; the store changes only through that write. -/
theorem listPhotosMiss_shape (J : JSONLib) (w : World) (albumId : Option String) (s : Store) :
    (∃ e, w.upstream (photosRequest albumId) = .error e ∧
      (listPhotosMiss J w albumId s).store = s ∧
      (listPhotosMiss J w albumId s).trace =
        [.cacheGet photosKey, .upstreamGet (photosRequest albumId)]) ∨
    (∃ d, w.upstream (photosRequest albumId) = .ok d ∧
      ((listPhotosMiss J w albumId s).store = s ∨
        (listPhotosMiss J w albumId s).store =
          s.setEx w.setTime photosKey DEFAULT_EXPIRATION (J.stringify d)) ∧
      (listPhotosMiss J w albumId s).trace =
        [.cacheGet photosKey, .upstreamGet (photosRequest albumId),
          .cacheSetEx photosKey DEFAULT_EXPIRATION (J.stringify d)]) := by
  rcases h : w.upstream (photosRequest albumId) with e | d
  · left; exact ⟨e, rfl, by rw [listPhotosMiss_upstream_error h], by
      rw [listPhotosMiss_upstream_error h]⟩
  · right
    refine ⟨d, rfl, ?_⟩
    rcases redisSetEx_cases w s photosKey DEFAULT_EXPIRATION (J.stringify d) with
      ⟨e, -, hset⟩ | ⟨-, hset⟩
    · rw [listPhotosMiss_set_error h hset]; exact ⟨Or.inl rfl, rfl⟩
    · rcases hlog : cachedCountLog d with e | u
      · rw [listPhotosMiss_log_error h hset hlog]; exact ⟨Or.inr rfl, rfl⟩
      · rw [listPhotosMiss_ok h hset hlog]; exact ⟨Or.inr rfl, rfl⟩

/-- On a miss the single-item handler issues the lookup, one upstream request and, when
the upstream answered, one write; the store changes only through that write. -/
theorem getPhotoByIdMiss_shape (J : JSONLib) (w : World) (photoId : String) (s : Store) :
    (∃ e, w.upstream (photoRequest photoId) = .error e ∧
      (getPhotoByIdMiss J w photoId s).store = s ∧
      (getPhotoByIdMiss J w photoId s).trace =
        [.cacheGet (photoKey photoId), .upstreamGet (photoRequest photoId)]) ∨
    (∃ d, w.upstream (photoRequest photoId) = .ok d ∧
      ((getPhotoByIdMiss J w photoId s).store = s ∨
        (getPhotoByIdMiss J w photoId s).store =
          s.setEx w.setTime (photoKey photoId) DEFAULT_EXPIRATION (J.stringify d)) ∧
      (getPhotoByIdMiss J w photoId s).trace =
        [.cacheGet (photoKey photoId), .upstreamGet (photoRequest photoId),
          .cacheSetEx (photoKey photoId) DEFAULT_EXPIRATION (J.stringify d)]) := by
  rcases h : w.upstream (photoRequest photoId) with e | d
  · left; exact ⟨e, rfl, by rw [getPhotoByIdMiss_upstream_error h], by
      rw [getPhotoByIdMiss_upstream_error h]⟩
  · right
    refine ⟨d, rfl, ?_⟩
    rcases redisSetEx_cases w s (photoKey photoId) DEFAULT_EXPIRATION (J.stringify d) with
      ⟨e, -, hset⟩ | ⟨-, hset⟩
    · rw [getPhotoByIdMiss_set_error h hset]; exact ⟨Or.inl rfl, rfl⟩
    · rw [getPhotoByIdMiss_ok h hset]; exact ⟨Or.inr rfl, rfl⟩

/-! ## One request, case by case

The same five cases for both handlers, stated through `serve`. -/

theorem serve_rejected {J : JSONLib} {w : World} {r : Request} {s : Store} {e : JsError}
    (h : w.redisGet s r.key = .error e) :
    serve J w r s = ⟨r.failure, s, [.cacheGet r.key]⟩ := by
  cases r with
  | photos albumId => simp only [serve, listPhotos, listPhotosTry_rejected h]; rfl
  | photo photoId => simp only [serve, getPhotoById, getPhotoByIdTry_rejected h]; rfl

theorem serve_hit_parsed {J : JSONLib} {w : World} {r : Request} {s : Store} {v : String}
    {body : Json} (h : w.redisGet s r.key = .ok (some v)) (hv : v ≠ "")
    (hparse : J.parse v = .ok body) :
    serve J w r s = ⟨⟨200, body⟩, s, [.cacheGet r.key]⟩ := by
  cases r with
  | photos albumId => simp only [serve, listPhotos, listPhotosTry_hit h hv, hparse]; rfl
  | photo photoId => simp only [serve, getPhotoById, getPhotoByIdTry_hit h hv, hparse]; rfl

theorem serve_hit_unparsable {J : JSONLib} {w : World} {r : Request} {s : Store} {v : String}
    {e : JsError} (h : w.redisGet s r.key = .ok (some v)) (hv : v ≠ "")
    (hparse : J.parse v = .error e) :
    serve J w r s = ⟨r.failure, s, [.cacheGet r.key]⟩ := by
  cases r with
  | photos albumId => simp only [serve, listPhotos, listPhotosTry_hit h hv, hparse]; rfl
  | photo photoId => simp only [serve, getPhotoById, getPhotoByIdTry_hit h hv, hparse]; rfl

theorem serve_miss_upstream_error {J : JSONLib} {w : World} {r : Request} {s : Store}
    {e : JsError}
    (h : w.redisGet s r.key = .ok none ∨ w.redisGet s r.key = .ok (some ""))
    (hup : w.upstream r.upstreamRequest = .error e) :
    serve J w r s = ⟨r.failure, s, [.cacheGet r.key, .upstreamGet r.upstreamRequest]⟩ := by
  cases r with
  | photos albumId =>
    simp only [serve, listPhotos, listPhotosTry_miss h, listPhotosMiss_upstream_error hup]; rfl
  | photo photoId =>
    simp only [serve, getPhotoById, getPhotoByIdTry_miss h,
      getPhotoByIdMiss_upstream_error hup]; rfl

theorem serve_miss_set_error {J : JSONLib} {w : World} {r : Request} {s : Store}
    {d : Json} {e : JsError}
    (h : w.redisGet s r.key = .ok none ∨ w.redisGet s r.key = .ok (some ""))
    (hup : w.upstream r.upstreamRequest = .ok d) (hset : w.setFault = some e) :
    serve J w r s = ⟨r.failure, s, [.cacheGet r.key, .upstreamGet r.upstreamRequest,
      .cacheSetEx r.key DEFAULT_EXPIRATION (J.stringify d)]⟩ := by
  cases r with
  | photos albumId =>
    have hs : w.redisSetEx s photosKey DEFAULT_EXPIRATION (J.stringify d) = .error e := by
      simp [World.redisSetEx, hset]
    simp only [serve, listPhotos, listPhotosTry_miss h, listPhotosMiss_set_error hup hs]; rfl
  | photo photoId =>
    have hs : w.redisSetEx s (photoKey photoId) DEFAULT_EXPIRATION (J.stringify d) =
        .error e := by
      simp [World.redisSetEx, hset]
    simp only [serve, getPhotoById, getPhotoByIdTry_miss h,
      getPhotoByIdMiss_set_error hup hs]; rfl

theorem getPhotoById_miss_written {J : JSONLib} {w : World} {photoId : String} {s : Store}
    {d : Json}
    (h : w.redisGet s (photoKey photoId) = .ok none ∨
      w.redisGet s (photoKey photoId) = .ok (some ""))
    (hup : w.upstream (photoRequest photoId) = .ok d) (hset : w.setFault = none) :
    getPhotoById J w photoId s =
      ⟨⟨200, d⟩, s.setEx w.setTime (photoKey photoId) DEFAULT_EXPIRATION (J.stringify d),
        [.cacheGet (photoKey photoId), .upstreamGet (photoRequest photoId),
          .cacheSetEx (photoKey photoId) DEFAULT_EXPIRATION (J.stringify d)]⟩ := by
  have hs : w.redisSetEx s (photoKey photoId) DEFAULT_EXPIRATION (J.stringify d) =
      .ok (s.setEx w.setTime (photoKey photoId) DEFAULT_EXPIRATION (J.stringify d)) := by
    simp [World.redisSetEx, hset]
  simp only [getPhotoById, getPhotoByIdTry_miss h, getPhotoByIdMiss_ok hup hs]

theorem listPhotos_miss_written {J : JSONLib} {w : World} {albumId : Option String}
    {s : Store} {d : Json}
    (h : w.redisGet s photosKey = .ok none ∨ w.redisGet s photosKey = .ok (some ""))
    (hup : w.upstream (photosRequest albumId) = .ok d) (hset : w.setFault = none) :
    (listPhotos J w albumId s).store =
        s.setEx w.setTime photosKey DEFAULT_EXPIRATION (J.stringify d) ∧
      (listPhotos J w albumId s).trace =
        [.cacheGet photosKey, .upstreamGet (photosRequest albumId),
          .cacheSetEx photosKey DEFAULT_EXPIRATION (J.stringify d)] ∧
      (cachedCountLog d = .ok () → (listPhotos J w albumId s).response = ⟨200, d⟩) ∧
      (∀ e, cachedCountLog d = .error e →
        (listPhotos J w albumId s).response = (Request.photos albumId).failure) := by
  have hs : w.redisSetEx s photosKey DEFAULT_EXPIRATION (J.stringify d) =
      .ok (s.setEx w.setTime photosKey DEFAULT_EXPIRATION (J.stringify d)) := by
    simp [World.redisSetEx, hset]
  rw [listPhotos_store, listPhotos_trace]
  rcases hlog : cachedCountLog d with e | u
  · have hrun := listPhotosMiss_log_error (J := J) hup hs hlog
    refine ⟨by rw [listPhotosTry_miss h, hrun], by rw [listPhotosTry_miss h, hrun], ?_, ?_⟩
    · intro hc; cases hc
    · intro e2 _
      exact listPhotos_response_error (e := e) (by rw [listPhotosTry_miss h, hrun])
  · have hrun := listPhotosMiss_ok (J := J) hup hs hlog
    refine ⟨by rw [listPhotosTry_miss h, hrun], by rw [listPhotosTry_miss h, hrun], ?_, ?_⟩
    · intro _
      exact listPhotos_response_ok (by rw [listPhotosTry_miss h, hrun])
    · intro e2 hc; cases hc

/-- An entry that is present and has not expired is what a working lookup returns. -/
theorem Store.get_live {s : Store} {key : String} {e : Entry} {now : Nat}
    (h : s key = some e) (hnow : now < e.expiresAt) : s.get now key = some e.value := by
  simp [Store.get, h, hnow]

/-- A key without an entry is absent at every time. -/
theorem Store.get_absent {s : Store} {key : String} (h : s key = none) (now : Nat) :
    s.get now key = none := by
  simp [Store.get, h]

/-- After `SETEX` the key holds the new value, expiring `ttl` seconds later. -/
theorem Store.setEx_same (s : Store) (now : Nat) (key : String) (ttl : Nat) (value : String) :
    s.setEx now key ttl value key = some ⟨value, now + ttl⟩ := by
  simp [Store.setEx]

/-- The `SETEX` of one key leaves every other key alone. -/
theorem Store.setEx_other (s : Store) (now : Nat) {key k : String} (ttl : Nat) (value : String)
    (h : k ≠ key) : s.setEx now key ttl value k = s k := by
  simp [Store.setEx, h]

/-! ## What one request can do to the store and which keys it names -/

theorem serve_hit_frame {J : JSONLib} {w : World} {r : Request} {s : Store} {v : String}
    (h : w.redisGet s r.key = .ok (some v)) (hv : v ≠ "") :
    (serve J w r s).store = s ∧ (serve J w r s).trace = [.cacheGet r.key] := by
  rcases hp : J.parse v with e | b
  · rw [serve_hit_unparsable h hv hp]; exact ⟨rfl, rfl⟩
  · rw [serve_hit_parsed h hv hp]; exact ⟨rfl, rfl⟩

theorem serve_miss_shape {J : JSONLib} {w : World} {r : Request} {s : Store}
    (h : w.redisGet s r.key = .ok none ∨ w.redisGet s r.key = .ok (some "")) :
    ((serve J w r s).store = s ∧
      (serve J w r s).trace = [.cacheGet r.key, .upstreamGet r.upstreamRequest]) ∨
    (∃ d, ((serve J w r s).store = s ∨
        (serve J w r s).store = s.setEx w.setTime r.key DEFAULT_EXPIRATION (J.stringify d)) ∧
      (serve J w r s).trace = [.cacheGet r.key, .upstreamGet r.upstreamRequest,
        .cacheSetEx r.key DEFAULT_EXPIRATION (J.stringify d)]) := by
  cases r with
  | photos albumId =>
    simp only [serve, listPhotos_store, listPhotos_trace, listPhotosTry_miss h]
    rcases listPhotosMiss_shape J w albumId s with ⟨_, _, hs, ht⟩ | ⟨d, _, hs, ht⟩
    · exact Or.inl ⟨hs, ht⟩
    · exact Or.inr ⟨d, hs, ht⟩
  | photo photoId =>
    simp only [serve, getPhotoById_store, getPhotoById_trace, getPhotoByIdTry_miss h]
    rcases getPhotoByIdMiss_shape J w photoId s with ⟨_, _, hs, ht⟩ | ⟨d, _, hs, ht⟩
    · exact Or.inl ⟨hs, ht⟩
    · exact Or.inr ⟨d, hs, ht⟩

theorem serve_miss_upstreamCalls {J : JSONLib} {w : World} {r : Request} {s : Store}
    (h : w.redisGet s r.key = .ok none ∨ w.redisGet s r.key = .ok (some "")) :
    upstreamCalls (serve J w r s).trace = [r.upstreamRequest] := by
  rcases serve_miss_shape (J := J) h with ⟨_, ht⟩ | ⟨d, _, ht⟩ <;> rw [ht] <;> rfl

/-- A request names no cache key but its own and changes no entry but its own. -/
theorem serve_frame (J : JSONLib) (w : World) (r : Request) (s : Store) (k : String)
    (hk : k ≠ r.key) :
    k ∉ cacheKeys (serve J w r s).trace ∧ (serve J w r s).store k = s k := by
  have hk2 : ¬ r.key = k := fun h => hk h.symm
  rcases redisGet_cases w s r.key with ⟨e, h⟩ | ⟨v, hv, h⟩ | h
  · rw [serve_rejected h]; simp [cacheKeys, hk]
  · obtain ⟨hs, ht⟩ := serve_hit_frame (J := J) h hv
    rw [hs, ht]; simp [cacheKeys, hk]
  · rcases serve_miss_shape (J := J) h with ⟨hs, ht⟩ | ⟨d, hs, ht⟩
    · rw [hs, ht]; simp [cacheKeys, hk]
    · rw [ht]
      refine ⟨by simp [cacheKeys, hk], ?_⟩
      rcases hs with hs | hs
      · rw [hs]
      · rw [hs]; exact Store.setEx_other s w.setTime _ _ hk

theorem photoKey_injective : Function.Injective photoKey := by
  intro a b h
  have hd := congrArg String.data h
  simp only [photoKey, String.data_append] at hd
  exact String.ext (List.append_cancel_left hd)

theorem photoKey_ne_photosKey (photoId : String) : photoKey photoId ≠ photosKey := by
  intro h
  have hd := congrArg String.data h
  simp [photoKey, photosKey, String.data_append] at hd

/-- A miss whose upstream request and write both succeed leaves, under the key of the
request, the serialized answer with an expiry `DEFAULT_EXPIRATION` seconds after the
write.  For the collection handler this holds whether or not the log line throws. -/
theorem serve_miss_written_entry {J : JSONLib} {w : World} {r : Request} {s : Store}
    {d : Json}
    (h : w.redisGet s r.key = .ok none ∨ w.redisGet s r.key = .ok (some ""))
    (hup : w.upstream r.upstreamRequest = .ok d) (hset : w.setFault = none) :
    (serve J w r s).store r.key = some ⟨J.stringify d, w.setTime + DEFAULT_EXPIRATION⟩ := by
  cases r with
  | photos albumId =>
    simp only [serve, (listPhotos_miss_written (J := J) h hup hset).1]
    exact Store.setEx_same _ _ _ _ _
  | photo photoId =>
    simp only [serve, getPhotoById_miss_written (J := J) h hup hset]
    exact Store.setEx_same _ _ _ _ _

/-- The log line of the collection handler never throws on an array. -/
theorem cachedCountLog_arr (items : List Json) : cachedCountLog (.arr items) = .ok () := rfl

/-- The log line of the collection handler throws on `null`. -/
theorem cachedCountLog_null :
    cachedCountLog .null = .error "Cannot read properties of null (reading 'length')" := rfl

/-- On a miss with Redis working, an upstream answer on which the log line does not
throw (every array, for one) is passed through with status 200 and stored under
"photos" for `DEFAULT_EXPIRATION` seconds. -/
theorem listPhotos_miss_passes_through {J : JSONLib} {w : World} {albumId : Option String}
    {s : Store} {d : Json}
    (h : w.redisGet s photosKey = .ok none ∨ w.redisGet s photosKey = .ok (some ""))
    (hup : w.upstream (photosRequest albumId) = .ok d) (hset : w.setFault = none)
    (hlog : cachedCountLog d = .ok ()) :
    (listPhotos J w albumId s).response = ⟨200, d⟩ ∧
    (listPhotos J w albumId s).store photosKey =
      some ⟨J.stringify d, w.setTime + DEFAULT_EXPIRATION⟩ := by
  obtain ⟨hs, -, hr, -⟩ := listPhotos_miss_written (J := J) h hup hset
  exact ⟨hr hlog, by rw [hs]; exact Store.setEx_same _ _ _ _ _⟩

/-! ## An entry that cannot be parsed -/

/-- A request that finds a live, non-empty, unparsable entry under its key, or whose
lookup is rejected, answers with the fixed 500 body and touches nothing. -/
theorem serve_unparsable_entry {J : JSONLib} {w : World} {r : Request} {s : Store}
    {entry : Entry} {e : JsError} (hentry : s r.key = some entry)
    (hv : entry.value ≠ "") (hbad : J.parse entry.value = .error e)
    (hlive : w.getTime < entry.expiresAt) :
    serve J w r s = ⟨r.failure, s, [.cacheGet r.key]⟩ := by
  cases hf : w.getFault with
  | some e2 => exact serve_rejected (redisGet_of_fault hf s r.key)
  | none =>
    have hget : w.redisGet s r.key = .ok (some entry.value) := by
      rw [redisGet_of_working hf, Store.get_live hentry hlive]
    exact serve_hit_unparsable hget hv hbad

/-! ## The claims -/

/-- C1 (as amended): for both handlers the upstream is contacted exactly when the lookup
succeeds and answers with nothing or with the empty string.  A stored non-empty string
is served without any upstream call; a stored empty string is falsy and counts as a
miss. -/
theorem upstream_contacted_iff_lookup_falsy (J : JSONLib) (w : World) (r : Request)
    (s : Store) :
    upstreamCalls (serve J w r s).trace ≠ [] ↔
      (w.redisGet s r.key = .ok none ∨ w.redisGet s r.key = .ok (some "")) := by
  rcases redisGet_cases w s r.key with ⟨e, h⟩ | ⟨v, hv, h⟩ | h
  · rw [serve_rejected h, h]; simp [upstreamCalls]
  · rw [(serve_hit_frame (J := J) h hv).2, h]; simp [upstreamCalls, hv]
  · rw [serve_miss_upstreamCalls h]; simp [h]

/-- C8: distinct ids get distinct keys, no single-item key equals the collection key,
the single-item handler neither names nor changes the collection entry, and the
collection handler neither names nor changes any single-item entry. -/
theorem cache_keys_collision_free :
    Function.Injective photoKey ∧
    (∀ photoId : String, photoKey photoId ≠ photosKey) ∧
    (∀ (J : JSONLib) (w : World) (photoId : String) (s : Store),
      photosKey ∉ cacheKeys (getPhotoById J w photoId s).trace ∧
      (getPhotoById J w photoId s).store photosKey = s photosKey) ∧
    (∀ (J : JSONLib) (w : World) (albumId : Option String) (s : Store) (photoId : String),
      photoKey photoId ∉ cacheKeys (listPhotos J w albumId s).trace ∧
      (listPhotos J w albumId s).store (photoKey photoId) = s (photoKey photoId)) := by
  refine ⟨photoKey_injective, photoKey_ne_photosKey, ?_, ?_⟩
  · intro J w photoId s
    exact serve_frame J w (.photo photoId) s photosKey (photoKey_ne_photosKey photoId).symm
  · intro J w albumId s photoId
    exact serve_frame J w (.photos albumId) s (photoKey photoId) (photoKey_ne_photosKey photoId)

/-- C1 fails as stated: a collection entry holding the empty string is a value, not
absent, and yet the handler goes to the upstream. -/
theorem empty_cached_string_reaches_upstream :
    (calmWorld 10 (.ok album1)).redisGet blankStore photosKey = .ok (some "") ∧
    upstreamCalls (listPhotos refJSON (calmWorld 10 (.ok album1)) none blankStore).trace =
      [photosRequest none] := by
  constructor <;> rfl

/-- C2: from a store with no entry for the id, with Redis working and the upstream
answering `d`, the first single-item request issues exactly one upstream request and
exactly one write `SETEX photo:<id> 3600 stringify(d)` and answers 200 with `d`; a second
request for the same id before the entry expires answers 200 with `d` again, with no
upstream request and no write. -/
theorem getPhotoById_first_then_second (J : JSONLib) (w1 w2 : World) (s : Store)
    (photoId : String) (d : Json)
    (hempty : s (photoKey photoId) = none)
    (hget1 : w1.getFault = none) (hset1 : w1.setFault = none)
    (hup : w1.upstream (photoRequest photoId) = .ok d)
    (hne : J.stringify d ≠ "") (hrt : J.parse (J.stringify d) = .ok d)
    (hget2 : w2.getFault = none) (hlive : w2.getTime < w1.setTime + 3600) :
    upstreamCalls (getPhotoById J w1 photoId s).trace = [photoRequest photoId] ∧
    cacheWrites (getPhotoById J w1 photoId s).trace =
      [(photoKey photoId, 3600, J.stringify d)] ∧
    (getPhotoById J w1 photoId s).response = ⟨200, d⟩ ∧
    (getPhotoById J w1 photoId s).store (photoKey photoId) =
      some ⟨J.stringify d, w1.setTime + 3600⟩ ∧
    (getPhotoById J w2 photoId (getPhotoById J w1 photoId s).store).response = ⟨200, d⟩ ∧
    upstreamCalls (getPhotoById J w2 photoId (getPhotoById J w1 photoId s).store).trace = [] ∧
    cacheWrites (getPhotoById J w2 photoId (getPhotoById J w1 photoId s).store).trace = [] := by
  have hmiss : w1.redisGet s (photoKey photoId) = .ok none ∨
      w1.redisGet s (photoKey photoId) = .ok (some "") := by
    left; rw [redisGet_of_working hget1, Store.get_absent hempty]
  have h1 := getPhotoById_miss_written (J := J) hmiss hup hset1
  have hhit : w2.redisGet (getPhotoById J w1 photoId s).store (Request.photo photoId).key =
      .ok (some (J.stringify d)) := by
    rw [redisGet_of_working hget2, h1]
    exact congrArg _ (Store.get_live (Store.setEx_same _ _ _ _ _) hlive)
  have h2 := serve_hit_parsed (J := J) hhit hne hrt
  simp only [serve] at h2
  rw [h2, h1]
  exact ⟨rfl, rfl, rfl, Store.setEx_same _ _ _ _ _, rfl, rfl, rfl⟩

/-- C3: from a store with no collection entry, with Redis working and the upstream
answering the request for album `a` with `d`, the first collection request issues exactly
one upstream request and exactly one write, under the key "photos"; a second collection
request for any album `b` before the entry expires answers 200 with `d`, the result for
`a`, and issues no upstream request, whatever the upstream would answer for `b`. -/
theorem listPhotos_first_then_second (J : JSONLib) (w1 w2 : World) (s : Store)
    (a b : Option String) (d : Json)
    (hempty : s photosKey = none)
    (hget1 : w1.getFault = none) (hset1 : w1.setFault = none)
    (hup : w1.upstream (photosRequest a) = .ok d)
    (hne : J.stringify d ≠ "") (hrt : J.parse (J.stringify d) = .ok d)
    (hget2 : w2.getFault = none) (hlive : w2.getTime < w1.setTime + 3600) :
    upstreamCalls (listPhotos J w1 a s).trace = [photosRequest a] ∧
    cacheWrites (listPhotos J w1 a s).trace = [("photos", 3600, J.stringify d)] ∧
    (listPhotos J w1 a s).store photosKey = some ⟨J.stringify d, w1.setTime + 3600⟩ ∧
    (listPhotos J w2 b (listPhotos J w1 a s).store).response = ⟨200, d⟩ ∧
    upstreamCalls (listPhotos J w2 b (listPhotos J w1 a s).store).trace = [] ∧
    cacheWrites (listPhotos J w2 b (listPhotos J w1 a s).store).trace = [] := by
  have hmiss : w1.redisGet s photosKey = .ok none ∨
      w1.redisGet s photosKey = .ok (some "") := by
    left; rw [redisGet_of_working hget1, Store.get_absent hempty]
  obtain ⟨hs, ht, -, -⟩ := listPhotos_miss_written (J := J) hmiss hup hset1
  have hhit : w2.redisGet (listPhotos J w1 a s).store (Request.photos b).key =
      .ok (some (J.stringify d)) := by
    rw [redisGet_of_working hget2, hs]
    exact congrArg _ (Store.get_live (Store.setEx_same _ _ _ _ _) hlive)
  have h2 := serve_hit_parsed (J := J) hhit hne hrt
  simp only [serve] at h2
  rw [h2, ht, hs]
  exact ⟨rfl, rfl, Store.setEx_same _ _ _ _ _, rfl, rfl, rfl⟩

/-- C4 at the failing input: the upstream answers the collection request with the JSON
value `null`.  The handler writes "null" under "photos" with a TTL of 3600 seconds, then
the log line reads `data.length` and throws, so the response is the fixed 500 body and
not 200 with `null`; the next request is a hit and answers 200 with `null`. -/
theorem listPhotos_null_is_cached_and_answered_500 :
    (listPhotos refJSON (calmWorld 10 (.ok .null)) (some "1") Store.empty).response =
      ⟨500, .obj [("error", .str "Failed to fetch photos")]⟩ ∧
    (listPhotos refJSON (calmWorld 10 (.ok .null)) (some "1") Store.empty).store "photos" =
      some ⟨"null", 3610⟩ ∧
    (listPhotos refJSON (calmWorld 20 (.ok .null)) (some "1")
      (listPhotos refJSON (calmWorld 10 (.ok .null)) (some "1") Store.empty).store).response =
      ⟨200, .null⟩ := by
  refine ⟨rfl, rfl, rfl⟩

/-- C5: for both handlers, when the lookup is a miss and the upstream request fails with
any error, the response is the fixed 500 body of the handler, the store is unchanged and
no write is issued. -/
theorem upstream_failure_gives_fixed_500 (J : JSONLib) (w : World) (r : Request) (s : Store)
    (e : JsError)
    (hmiss : w.redisGet s r.key = .ok none ∨ w.redisGet s r.key = .ok (some ""))
    (hup : w.upstream r.upstreamRequest = .error e) :
    (serve J w r s).response = r.failure ∧
    (serve J w r s).store = s ∧
    cacheWrites (serve J w r s).trace = [] := by
  rw [serve_miss_upstream_error hmiss hup]
  exact ⟨rfl, rfl, rfl⟩

/-- C6: for both handlers, when the lookup is rejected, or when the write issued after a
miss and a successful upstream request is rejected, the response is the fixed 500 body
of the handler and the store is unchanged; when the lookup is rejected no upstream
request is issued. -/
theorem cache_failure_gives_fixed_500 (J : JSONLib) (w : World) (r : Request) (s : Store)
    (hfail : (∃ e, w.getFault = some e) ∨
      ((w.redisGet s r.key = .ok none ∨ w.redisGet s r.key = .ok (some "")) ∧
        (∃ d, w.upstream r.upstreamRequest = .ok d) ∧ ∃ e, w.setFault = some e)) :
    (serve J w r s).response = r.failure ∧
    (serve J w r s).store = s ∧
    ((∃ e, w.getFault = some e) → upstreamCalls (serve J w r s).trace = []) := by
  rcases hfail with ⟨e, he⟩ | ⟨hmiss, ⟨d, hd⟩, e, he⟩
  · rw [serve_rejected (redisGet_of_fault he s r.key)]
    exact ⟨rfl, rfl, fun _ => rfl⟩
  · rw [serve_miss_set_error hmiss hd he]
    refine ⟨rfl, rfl, ?_⟩
    rintro ⟨e2, he2⟩
    rcases hmiss with hm | hm <;> rw [redisGet_of_fault he2] at hm <;> cases hm

/-- C7 fails as stated: the id "5?albumId=1" (the request `GET /photos/5%3FalbumId=1`)
is copied into the URL unencoded.  The URL handed to the HTTP client is the host, then
"/photos/5", then '?' and the rest of the id: the text between the host and the first
'?' is "/photos/5", which has no '?' or '#' in it and is not "/photos/" followed by the
id. -/
theorem photo_id_with_question_mark_changes_path :
    upstreamCalls
        (getPhotoById refJSON (calmWorld 10 (.ok photo5)) "5?albumId=1" Store.empty).trace =
      [⟨"https://jsonplaceholder.typicode.com" ++ "/photos/5" ++ "?" ++ "albumId=1", []⟩] ∧
    ('?' ∉ "/photos/5".data ∧ '#' ∉ "/photos/5".data) ∧
    "/photos/5" ≠ "/photos/" ++ "5?albumId=1" := by
  refine ⟨rfl, ⟨?_, ?_⟩, ?_⟩ <;> decide

/-- C7 (as amended): on a miss the single-item handler issues exactly one upstream
request.  Its URL is the fixed text "https://jsonplaceholder.typicode.com/photos/"
followed by the id, copied verbatim without any encoding, and it carries no query
parameters.  What path the HTTP client derives from that text is not part of the
statement. -/
theorem photo_request_url_is_verbatim (J : JSONLib) (w : World) (s : Store)
    (photoId : String)
    (hmiss : w.redisGet s (photoKey photoId) = .ok none ∨
      w.redisGet s (photoKey photoId) = .ok (some "")) :
    upstreamCalls (getPhotoById J w photoId s).trace =
      [⟨"https://jsonplaceholder.typicode.com/photos/" ++ photoId, []⟩] :=
  serve_miss_upstreamCalls (J := J) (r := .photo photoId) hmiss

/-- C9: for both handlers a hit (a lookup answering a non-empty string) leaves the store
exactly as it was and issues no write; the same holds for any sequence of hits served
one after the other, so every entry keeps its value and its expiry time.  When the store
is the one left by a miss that wrote its entry, the entry still expires 3600 seconds
after that write, however many hits follow. -/
theorem hits_leave_store_unchanged (J : JSONLib) (s : Store) (reqs : List (World × Request))
    (hhits : ∀ p ∈ reqs, ∃ v, v ≠ "" ∧ p.1.redisGet s p.2.key = .ok (some v)) :
    (∀ p ∈ reqs, (serve J p.1 p.2 s).store = s ∧ cacheWrites (serve J p.1 p.2 s).trace = []) ∧
    (∀ o ∈ serveAll J reqs s, o.store = s ∧ cacheWrites o.trace = []) ∧
    (∀ (key : String) (entry : Entry), s key = some entry →
      ∀ o ∈ serveAll J reqs s, o.store key = some entry) ∧
    (∀ (w0 : World) (r0 : Request) (s0 : Store) (d : Json),
      s = (serve J w0 r0 s0).store →
      (w0.redisGet s0 r0.key = .ok none ∨ w0.redisGet s0 r0.key = .ok (some "")) →
      w0.upstream r0.upstreamRequest = .ok d → w0.setFault = none →
      ∀ o ∈ serveAll J reqs s,
        o.store r0.key = some ⟨J.stringify d, w0.setTime + 3600⟩) := by
  have single : ∀ p ∈ reqs,
      (serve J p.1 p.2 s).store = s ∧ cacheWrites (serve J p.1 p.2 s).trace = [] := by
    intro p hp
    obtain ⟨v, hv, hget⟩ := hhits p hp
    obtain ⟨hs, ht⟩ := serve_hit_frame (J := J) hget hv
    rw [hs, ht]; exact ⟨rfl, rfl⟩
  have all : ∀ o ∈ serveAll J reqs s, o.store = s ∧ cacheWrites o.trace = [] := by
    clear hhits
    induction reqs with
    | nil => intro o ho; cases ho
    | cons p rest ih =>
      obtain ⟨w, r⟩ := p
      have hp := single (w, r) (List.mem_cons_self _ _)
      intro o ho
      simp only [serveAll, List.mem_cons] at ho
      rcases ho with rfl | ho
      · exact hp
      · rw [hp.1] at ho
        exact ih (fun q hq => single q (List.mem_cons_of_mem _ hq)) o ho
  refine ⟨single, all, ?_, ?_⟩
  · intro key entry hentry o ho
    rw [(all o ho).1]; exact hentry
  · intro w0 r0 s0 d hs hmiss hup hset o ho
    rw [(all o ho).1, hs]
    exact serve_miss_written_entry hmiss hup hset

/-- C10: while a non-empty entry that is not JSON is present under a key, every request
for that key, served one after the other, answers with the fixed 500 body of its
handler, issues no upstream request and no write, and leaves the store as it was: the
entry is never replaced. -/
theorem unparsable_entry_is_never_repaired (J : JSONLib) (s : Store) (key : String)
    (entry : Entry) (e : JsError) (reqs : List (World × Request))
    (hentry : s key = some entry) (hv : entry.value ≠ "")
    (hbad : J.parse entry.value = .error e)
    (hreqs : ∀ p ∈ reqs, p.2.key = key ∧ p.1.getTime < entry.expiresAt) :
    (serveAll J reqs s).map (fun o => o.response) = reqs.map (fun p => p.2.failure) ∧
    (∀ o ∈ serveAll J reqs s, o.response.status = 500 ∧ upstreamCalls o.trace = [] ∧
      cacheWrites o.trace = [] ∧ o.store = s) := by
  induction reqs with
  | nil => exact ⟨rfl, fun o ho => by cases ho⟩
  | cons p rest ih =>
    obtain ⟨w, r⟩ := p
    obtain ⟨hk, hlive⟩ := hreqs (w, r) (List.mem_cons_self _ _)
    simp only at hk hlive
    subst hk
    have hstep := serve_unparsable_entry (J := J) hentry hv hbad hlive
    obtain ⟨ih1, ih2⟩ := ih (fun q hq => hreqs q (List.mem_cons_of_mem _ hq))
    constructor
    · simp only [serveAll, hstep, List.map_cons, ih1]
    · intro o ho
      simp only [serveAll, hstep, List.mem_cons] at ho
      rcases ho with rfl | ho
      · refine ⟨?_, rfl, rfl, rfl⟩
        cases r <;> rfl
      · exact ih2 o ho

/-! ## The claims at concrete inputs -/

/-- C2 on `GET /photos/5` with an empty store: the upstream answers `photo5` at time 10;
at time 20 the upstream is down and the second request is still answered from the
cache. -/
theorem getPhotoById_first_then_second_witness :
    (refJSON.stringify photo5 ≠ "" ∧ refJSON.parse (refJSON.stringify photo5) = .ok photo5) ∧
    (getPhotoById refJSON (calmWorld 10 (.ok photo5)) "5" Store.empty).response =
      ⟨200, photo5⟩ ∧
    cacheWrites (getPhotoById refJSON (calmWorld 10 (.ok photo5)) "5" Store.empty).trace =
      [("photo:5", 3600, "\x7b\"albumId\":1,\"id\":5,\"title\":\"natus nisi omnis\"\x7d")] ∧
    (getPhotoById refJSON (calmWorld 20 (.error "Network Error")) "5"
      (getPhotoById refJSON (calmWorld 10 (.ok photo5)) "5" Store.empty).store).response =
      ⟨200, photo5⟩ :=
  have h := getPhotoById_first_then_second refJSON (calmWorld 10 (.ok photo5))
    (calmWorld 20 (.error "Network Error")) Store.empty "5" photo5 rfl rfl rfl rfl
    (by decide) rfl rfl (by decide)
  ⟨⟨by decide, rfl⟩, h.2.2.1, h.2.1, h.2.2.2.2.1⟩

/-- C3 on `GET /photos?albumId=1` followed by `GET /photos?albumId=2`: the second
request is answered with the photos of album 1 although the upstream would answer the
empty list. -/
theorem listPhotos_first_then_second_witness :
    (listPhotos refJSON (calmWorld 10 (.ok album1)) (some "1") Store.empty).store "photos" =
      some ⟨"[\x7b\"albumId\":1,\"id\":1\x7d,\x7b\"albumId\":1,\"id\":2\x7d]", 3610⟩ ∧
    (listPhotos refJSON (calmWorld 20 (.ok (.arr []))) (some "2")
      (listPhotos refJSON (calmWorld 10 (.ok album1)) (some "1") Store.empty).store).response =
      ⟨200, album1⟩ ∧
    upstreamCalls (listPhotos refJSON (calmWorld 20 (.ok (.arr []))) (some "2")
      (listPhotos refJSON (calmWorld 10 (.ok album1)) (some "1") Store.empty).store).trace =
      [] :=
  have h := listPhotos_first_then_second refJSON (calmWorld 10 (.ok album1))
    (calmWorld 20 (.ok (.arr []))) Store.empty (some "1") (some "2") album1 rfl rfl rfl rfl
    (by decide) rfl rfl (by decide)
  ⟨h.2.2.1, h.2.2.2.1, h.2.2.2.2.1⟩

/-- C5 on `GET /photos/5` with an empty store and the upstream answering 503. -/
theorem upstream_failure_gives_fixed_500_witness :
    (getPhotoById refJSON (calmWorld 10 (.error "Request failed with status code 503")) "5"
      Store.empty).response = ⟨500, .obj [("error", .str "Failed to fetch photo")]⟩ ∧
    cacheWrites (getPhotoById refJSON
      (calmWorld 10 (.error "Request failed with status code 503")) "5" Store.empty).trace =
      [] :=
  have h := upstream_failure_gives_fixed_500 refJSON
    (calmWorld 10 (.error "Request failed with status code 503")) (.photo "5") Store.empty
    "Request failed with status code 503" (Or.inl rfl) rfl
  ⟨h.1, h.2.2⟩

/-- C6 on `GET /photos` with Redis rejecting the lookup, and on `GET /photos/5` with
Redis rejecting the write, the upstream answering both times. -/
theorem cache_failure_gives_fixed_500_witness :
    ((listPhotos refJSON (lookupDownWorld 10 (.ok album1)) none Store.empty).response =
        ⟨500, .obj [("error", .str "Failed to fetch photos")]⟩ ∧
      upstreamCalls (listPhotos refJSON (lookupDownWorld 10 (.ok album1)) none
        Store.empty).trace = []) ∧
    (getPhotoById refJSON (writeDownWorld 10 (.ok photo5)) "5" Store.empty).response =
      ⟨500, .obj [("error", .str "Failed to fetch photo")]⟩ :=
  have h1 := cache_failure_gives_fixed_500 refJSON (lookupDownWorld 10 (.ok album1))
    (.photos none) Store.empty (Or.inl ⟨_, rfl⟩)
  have h2 := cache_failure_gives_fixed_500 refJSON (writeDownWorld 10 (.ok photo5))
    (.photo "5") Store.empty (Or.inr ⟨Or.inl rfl, ⟨photo5, rfl⟩, ⟨_, rfl⟩⟩)
  ⟨⟨h1.1, h1.2.2 ⟨_, rfl⟩⟩, h2.1⟩

/-- C7 (as amended) on `GET /photos/..%2Fusers` with an empty store: the id "../users"
is copied into the URL as it is. -/
theorem photo_request_url_is_verbatim_witness :
    upstreamCalls
        (getPhotoById refJSON (calmWorld 10 (.ok photo5)) "../users" Store.empty).trace =
      [⟨"https://jsonplaceholder.typicode.com/photos/" ++ "../users", []⟩] :=
  photo_request_url_is_verbatim refJSON (calmWorld 10 (.ok photo5)) Store.empty "../users"
    (Or.inl rfl)

/-- C9 on two requests for photo 5 against a store that holds it until time 3600: one
at time 10 and one at time 3599, the second with the upstream down.  After each of them
the store is the one they started from. -/
theorem hits_leave_store_unchanged_witness :
    (serve refJSON (calmWorld 10 (.ok photo5)) (.photo "5") warmStore).store = warmStore ∧
    (serve refJSON (calmWorld 3599 (.error "Network Error")) (.photo "5")
      (serve refJSON (calmWorld 10 (.ok photo5)) (.photo "5") warmStore).store).store =
      warmStore ∧
    cacheWrites (serve refJSON (calmWorld 3599 (.error "Network Error")) (.photo "5")
      (serve refJSON (calmWorld 10 (.ok photo5)) (.photo "5") warmStore).store).trace = [] :=
  have h := hits_leave_store_unchanged refJSON warmStore
    [(calmWorld 10 (.ok photo5), Request.photo "5"),
      (calmWorld 3599 (.error "Network Error"), Request.photo "5")]
    (by
      intro p hp
      simp only [List.mem_cons, List.mem_singleton, List.not_mem_nil, or_false] at hp
      rcases hp with rfl | rfl
      · exact ⟨refJSON.stringify photo5, by decide, rfl⟩
      · exact ⟨refJSON.stringify photo5, by decide, rfl⟩)
  have h2 := h.2.1 (serve refJSON (calmWorld 3599 (.error "Network Error")) (.photo "5")
      (serve refJSON (calmWorld 10 (.ok photo5)) (.photo "5") warmStore).store)
    (List.mem_cons_of_mem _ (List.mem_cons_self _ _))
  ⟨(h.2.1 _ (List.mem_cons_self _ _)).1, h2.1, h2.2⟩

/-- C10 on two collection requests against a store whose "photos" entry is the text
"<html>": both are answered with the fixed 500 body although the upstream is up. -/
theorem unparsable_entry_is_never_repaired_witness :
    (serveAll refJSON
        [(calmWorld 10 (.ok album1), Request.photos none),
          (calmWorld 20 (.ok album1), Request.photos (some "2"))] garbledStore).map
        (fun o => o.response) =
      [⟨500, .obj [("error", .str "Failed to fetch photos")]⟩,
        ⟨500, .obj [("error", .str "Failed to fetch photos")]⟩] :=
  (unparsable_entry_is_never_repaired refJSON garbledStore photosKey ⟨"<html>", 3600⟩
    "Unexpected token"
    [(calmWorld 10 (.ok album1), Request.photos none),
      (calmWorld 20 (.ok album1), Request.photos (some "2"))]
    rfl (by decide) rfl
    (by
      intro p hp
      simp only [List.mem_cons, List.mem_singleton, List.not_mem_nil, or_false] at hp
      rcases hp with rfl | rfl
      · exact ⟨rfl, by decide⟩
      · exact ⟨rfl, by decide⟩)).1

end PhotoServer
